import Mathlib

/-
Verification development for the SakshiConnect OffersScreen
(src/src/Screens/OffersScreen.tsx).

The screen keeps three pieces of React state — `products`, `loading`,
`refreshing` — and exposes three operations: `loadProducts` (catalog
fetch), `onRefresh` (pull-to-refresh wrapper) and `handlePlaceOrder`
(confirm-then-submit order flow).  Each operation is embedded below as a
pure function from the pre-state and the outcomes of its external calls
to a `RunResult`: the ordered list of intermediate states written by the
state setters, the ordered list of externally observable events (service
calls and alerts), and the post-state.
-/

namespace SakshiConnect

/-- Product shape as consumed by OffersScreen (imported from ../api/client;
fields are exactly those the screen reads). -/
structure Product where
  id : String
  distributor_id : String
  product_name : String
  category : Option String
  price : Nat
  moq : Nat
  payment_modes : List String
  lead_time : Option String
  stock_quantity : Nat
  service_areas : List String
deriving Repr, DecidableEq

/-- Order request object literal passed to createOrder
(OffersScreen.tsx lines 56-65). -/
structure OrderRequest where
  user_id : String
  distributor_id : String
  product_id : String
  product_name : String
  quantity : Nat
  price : Nat
  payment_mode : String
  delivery_address : String
deriving Repr, DecidableEq

/-- JavaScript `m || fallback` on an optional string: `none` models
`undefined`, and the empty string is falsy, so both yield the fallback. -/
def jsStringOr (m : Option String) (fallback : String) : String :=
  match m with
  | none => fallback
  | some s => if s = "" then fallback else s

/-- JavaScript `xs[0] || fallback`: out-of-range indexing yields
`undefined` (falsy) and an empty first element is falsy too. -/
def jsHeadOr (modes : List String) (fallback : String) : String :=
  match modes with
  | [] => fallback
  | m :: _ => if m = "" then fallback else m

/-- Hardcoded default caller identity (line 17: `userId = 'USER001'`). -/
def defaultUserId : String := "USER001"

/-- React default-parameter semantics: the default applies exactly when
the prop is `undefined` (modelled as `none`). -/
def resolveUserId (userId : Option String) : String :=
  userId.getD defaultUserId

/-- Fixed placeholder delivery address (line 64). -/
def defaultDeliveryAddress : String := "Default Address"

/-- Construction of the OrderRequest from the selected product and the
resolved caller identity (lines 56-65). -/
def mkOrderRequest (userId : String) (product : Product) : OrderRequest :=
  { user_id := userId
    distributor_id := product.distributor_id
    product_id := product.id
    product_name := product.product_name
    quantity := product.moq
    price := product.price
    payment_mode := jsHeadOr product.payment_modes "COD"
    delivery_address := defaultDeliveryAddress }

/-- The screen's React state (lines 19-21). -/
structure ViewState where
  products : List Product
  loading : Bool
  refreshing : Bool
deriving Repr, DecidableEq

/-- State at mount: `useState([])`, `useState(true)`, `useState(false)`. -/
def initialViewState : ViewState :=
  { products := [], loading := true, refreshing := false }

/-- Externally observable events of a run, in program order. -/
inductive Event where
  | fetchCall (distributorIdFilter : Option String) (onlyAvailable : Bool)
  | alertShown (title message : String)
  | createOrderCall (request : OrderRequest)
  | ackSuccess
deriving Repr, DecidableEq

/-- Result of running one operation: the states written by each setter
call in order, the observable events in order, and the final state. -/
structure RunResult where
  states : List ViewState
  events : List Event
  final : ViewState
deriving Repr, DecidableEq

/-- Outcome of a getInventory call: the fetched product list, or a
service error carrying an optional human-readable message. -/
def FetchOutcome : Type := Except (Option String) (List Product)

/-- loadProducts (lines 23-34): sets loading, issues exactly one
`getInventory(undefined, true)` call, stores the data on success, alerts
on failure with the error message or a fallback, and clears loading in
the `finally` block. -/
def loadProducts (s : ViewState) (r : FetchOutcome) : RunResult :=
  let s1 : ViewState := { s with loading := true }
  match r with
  | .ok data =>
      let s2 : ViewState := { s1 with products := data }
      let s3 : ViewState := { s2 with loading := false }
      { states := [s1, s2, s3]
        events := [.fetchCall none true]
        final := s3 }
  | .error msg =>
      let s2 : ViewState := { s1 with loading := false }
      { states := [s1, s2]
        events := [.fetchCall none true,
                   .alertShown "Error" (jsStringOr msg "Failed to load products")]
        final := s2 }

/-- onRefresh (lines 36-40): sets refreshing, awaits loadProducts (which
never throws, its errors are caught internally), then clears
refreshing. -/
def onRefresh (s : ViewState) (r : FetchOutcome) : RunResult :=
  let s1 : ViewState := { s with refreshing := true }
  let inner := loadProducts s1 r
  let s2 : ViewState := { inner.final with refreshing := false }
  { states := s1 :: inner.states ++ [s2]
    events := inner.events
    final := s2 }

/-- User choice on the confirmation dialog (Cancel / Place Order). -/
inductive ConfirmChoice where
  | cancel
  | confirm
deriving Repr, DecidableEq

/-- Outcome of a createOrder call: the order id, or a service error
carrying an optional message. -/
def OrderOutcome : Type := Except (Option String) String

/-- handlePlaceOrder (lines 46-79).  The confirmation dialog offers
Cancel (no handler: nothing runs) and Place Order (submits the derived
request).  On success a notice with the order id is shown; pressing its
OK button (`ack = true`) runs loadProducts with outcome `rr`.  On
failure a notice with the service message or a fallback is shown and
nothing else happens. -/
def handlePlaceOrder (userId : String) (product : Product) (s : ViewState)
    (choice : ConfirmChoice) (ores : OrderOutcome) (ack : Bool)
    (rr : FetchOutcome) : RunResult :=
  match choice with
  | .cancel => { states := [], events := [], final := s }
  | .confirm =>
      let req := mkOrderRequest userId product
      match ores with
      | .ok orderId =>
          let successMsg :=
            "Order placed successfully!\nOrder ID: " ++ orderId ++
              "\n\nThe distributor will see it in their Orders tab."
          if ack then
            let reload := loadProducts s rr
            { states := reload.states
              events := [.createOrderCall req, .alertShown "Success" successMsg,
                         .ackSuccess] ++ reload.events
              final := reload.final }
          else
            { states := []
              events := [.createOrderCall req, .alertShown "Success" successMsg]
              final := s }
      | .error msg =>
          { states := []
            events := [.createOrderCall req,
                       .alertShown "Error" (jsStringOr msg "Failed to place order")]
            final := s }

/-- Recognises a catalog-fetch event. -/
def isFetchCall : Event → Bool
  | .fetchCall _ _ => true
  | _ => false

/-- Recognises a user-facing notice event. -/
def isAlertShown : Event → Bool
  | .alertShown _ _ => true
  | _ => false

/-- Every order-creation event in a run carries quantity equal to the
given product's moq (vacuously true of other events). -/
def orderQuantityMatches (p : Product) : Event → Bool
  | .createOrderCall req => req.quantity == p.moq
  | _ => true

/-- What the screen renders (lines 81-88 and 110-182): a loading
indicator when `loading && !refreshing`, otherwise the empty-catalog
message when the product list is empty, otherwise one card per
product. -/
inductive Screen where
  | loadingIndicator
  | emptyCatalog
  | productCards (ps : List Product)
deriving Repr, DecidableEq

/-- Render function of the screen as a function of its state. -/
def render (s : ViewState) : Screen :=
  if s.loading && !s.refreshing then .loadingIndicator
  else if s.products.length = 0 then .emptyCatalog
  else .productCards s.products

/-- C1: every submitted OrderRequest derived from a Product P has
quantity equal to P.moq, and no order-creation event with any other
quantity ever occurs in the place-order flow, whatever the user choice
and the service outcomes. -/
theorem c1_moq_default (u : String) (p : Product) (s : ViewState)
    (choice : ConfirmChoice) (ores : OrderOutcome) (ack : Bool)
    (rr : FetchOutcome) :
    (mkOrderRequest u p).quantity = p.moq ∧
      ((handlePlaceOrder u p s choice ores ack rr).events.all
        (orderQuantityMatches p)) = true := by
  constructor
  · rfl
  · cases choice with
    | cancel => rfl
    | confirm =>
        cases ores with
        | ok orderId =>
            cases ack with
            | false =>
                simp [handlePlaceOrder, orderQuantityMatches, mkOrderRequest]
            | true =>
                cases rr with
                | ok data =>
                    simp [handlePlaceOrder, loadProducts, orderQuantityMatches,
                      mkOrderRequest, List.all]
                | error msg =>
                    simp [handlePlaceOrder, loadProducts, orderQuantityMatches,
                      mkOrderRequest, List.all]
        | error msg =>
            simp [handlePlaceOrder, orderQuantityMatches, mkOrderRequest,
              List.all]

/-- C2 as stated is false: for a product whose payment_modes is the
non-empty list [""], the submitted payment_mode is the fallback "COD",
not the first element "". -/
theorem c2_counterexample :
    ¬ (∀ u : String, ∀ p : Product,
        p.payment_modes ≠ [] →
          (mkOrderRequest u p).payment_mode = p.payment_modes.headD "") := by
  intro h
  have := h "USER001"
    { id := "P1", distributor_id := "D1", product_name := "Rice"
      category := none, price := 100, moq := 10, payment_modes := [""]
      lead_time := none, stock_quantity := 5, service_areas := [] }
    (by decide)
  simp [mkOrderRequest, jsHeadOr] at this

/-- C2 amended: if P.payment_modes is empty the submitted payment_mode
is the fallback "COD"; otherwise it equals the first element when that
element is non-empty, and falls back to "COD" when the first element is
the empty string. -/
theorem c2_payment_mode_fallback (u : String) (p : Product) :
    (p.payment_modes = [] → (mkOrderRequest u p).payment_mode = "COD") ∧
      (∀ m ms, p.payment_modes = m :: ms →
        (m ≠ "" → (mkOrderRequest u p).payment_mode = m) ∧
          (m = "" → (mkOrderRequest u p).payment_mode = "COD")) := by
  constructor
  · intro h
    simp [mkOrderRequest, jsHeadOr, h]
  · intro m ms h
    constructor
    · intro hm
      simp [mkOrderRequest, jsHeadOr, h, hm]
    · intro hm
      simp [mkOrderRequest, jsHeadOr, h, hm]

/-- Witness for c2_payment_mode_fallback at a concrete product with
payment_modes = ["UPI"]. -/
theorem c2_payment_mode_fallback_witness :
    (mkOrderRequest "USER001"
      { id := "P2", distributor_id := "D1", product_name := "Wheat"
        category := none, price := 50, moq := 20, payment_modes := ["UPI"]
        lead_time := none, stock_quantity := 7,
        service_areas := [] }).payment_mode = "UPI" :=
  ((c2_payment_mode_fallback "USER001"
      { id := "P2", distributor_id := "D1", product_name := "Wheat"
        category := none, price := 50, moq := 20, payment_modes := ["UPI"]
        lead_time := none, stock_quantity := 7,
        service_areas := [] }).2 "UPI" [] rfl).1 (by decide)

/-- C7: every loadProducts invocation issues exactly one fetch call,
always with no distributor filter and onlyAvailable = true, and on
success the final product list is exactly the fetched data. -/
theorem c7_single_fetch_and_replace (s : ViewState) (r : FetchOutcome)
    (data : List Product) :
    (loadProducts s r).events.filter isFetchCall =
        [Event.fetchCall none true] ∧
      (loadProducts s (Except.ok data)).final.products = data := by
  constructor
  · cases r with
    | ok d => simp [loadProducts, isFetchCall]
    | error m => simp [loadProducts, isFetchCall]
  · rfl

/-- C8: every submitted OrderRequest has the fixed placeholder delivery
address and the selected product's captured price, and user_id is the
supplied identity when one is given and the hardcoded default "USER001"
when none is supplied. -/
theorem c8_request_defaults (p : Product) (x : String) :
    (mkOrderRequest (resolveUserId (some x)) p).delivery_address
        = "Default Address" ∧
      (mkOrderRequest (resolveUserId (some x)) p).price = p.price ∧
      (mkOrderRequest (resolveUserId (some x)) p).user_id = x ∧
      (mkOrderRequest (resolveUserId none) p).user_id = "USER001" := by
  refine ⟨rfl, rfl, rfl, rfl⟩

/-- C9: cancelling at the confirmation step has no side effect: no
service call, no notice, no state write, and the final ViewState (its
products and both flags) equals the pre-state. -/
theorem c9_cancel_no_side_effect (u : String) (p : Product) (s : ViewState)
    (ores : OrderOutcome) (ack : Bool) (rr : FetchOutcome) :
    (handlePlaceOrder u p s ConfirmChoice.cancel ores ack rr).events = [] ∧
      (handlePlaceOrder u p s ConfirmChoice.cancel ores ack rr).states = [] ∧
      (handlePlaceOrder u p s ConfirmChoice.cancel ores ack rr).final = s := by
  refine ⟨rfl, rfl, rfl⟩

/-- C3 as stated is false: during an explicit refresh the loading flag
IS set — starting from a settled state, the trace of onRefresh contains
a state with loading = true while refreshing = true (loadProducts sets
loading unconditionally, refresh or not). -/
theorem c3_counterexample :
    ∃ st ∈ (onRefresh { products := [], loading := false, refreshing := false }
        (Except.ok ([] : List Product))).states,
      st.loading = true ∧ st.refreshing = true := by
  refine ⟨{ products := [], loading := true, refreshing := true }, ?_, rfl, rfl⟩
  simp [onRefresh, loadProducts]

/-- C3 amended: when load() runs as part of an explicit refresh, the
refreshing flag is set but loading is ALSO set for the duration of the
fetch; on completion of a refresh both flags are cleared regardless of
whether the fetch succeeded or failed. -/
theorem c3_refresh_flags (s : ViewState) (r : FetchOutcome) :
    (∃ st ∈ (onRefresh s r).states, st.loading = true ∧ st.refreshing = true) ∧
      (onRefresh s r).final.loading = false ∧
      (onRefresh s r).final.refreshing = false := by
  refine ⟨⟨{ s with loading := true, refreshing := true }, ?_, rfl, rfl⟩, ?_, ?_⟩
  · cases r with
    | ok data => simp [onRefresh, loadProducts]
    | error m => simp [onRefresh, loadProducts]
  · cases r with
    | ok data => rfl
    | error m => rfl
  · cases r with
    | ok data => rfl
    | error m => rfl

/-- C4: whichever way the catalog load is invoked (directly, via an
explicit refresh, or as the reload after an acknowledged successful
order), a failed fetch leaves ViewState.products exactly as it was,
shows exactly one notice, and issues exactly one fetch call with no
retry. -/
theorem c4_failure_preserves_products (s : ViewState) (msg : Option String)
    (u : String) (p : Product) (oid : String) :
    (loadProducts s (Except.error msg)).final.products = s.products ∧
      (loadProducts s (Except.error msg)).events.countP isAlertShown = 1 ∧
      (loadProducts s (Except.error msg)).events.countP isFetchCall = 1 ∧
      (onRefresh s (Except.error msg)).final.products = s.products ∧
      (onRefresh s (Except.error msg)).events.countP isAlertShown = 1 ∧
      (onRefresh s (Except.error msg)).events.countP isFetchCall = 1 ∧
      (handlePlaceOrder u p s ConfirmChoice.confirm (Except.ok oid) true
          (Except.error msg)).final.products = s.products := by
  refine ⟨rfl, ?_, ?_, rfl, ?_, ?_, rfl⟩ <;>
    simp [loadProducts, onRefresh, isAlertShown, isFetchCall, List.countP,
      List.countP.go]

/-- C5: a failed order submission leaves ViewState.products (indeed the
whole ViewState) unchanged, and the notice shown carries the
service-provided message when a non-empty one is present and the generic
fallback "Failed to place order" when none is provided. -/
theorem c5_failed_submission (u : String) (p : Product) (s : ViewState)
    (ack : Bool) (rr : FetchOutcome) (msg : Option String) :
    (handlePlaceOrder u p s ConfirmChoice.confirm (Except.error msg) ack
        rr).final = s ∧
      (msg = none →
        Event.alertShown "Error" "Failed to place order" ∈
          (handlePlaceOrder u p s ConfirmChoice.confirm (Except.error msg) ack
            rr).events) ∧
      (∀ m, msg = some m → m ≠ "" →
        Event.alertShown "Error" m ∈
          (handlePlaceOrder u p s ConfirmChoice.confirm (Except.error msg) ack
            rr).events) := by
  refine ⟨rfl, ?_, ?_⟩
  · intro h
    subst h
    simp [handlePlaceOrder, jsStringOr]
  · intro m h hm
    subst h
    simp [handlePlaceOrder, jsStringOr, hm]

/-- Witness for c5_failed_submission: a rejection with message
"Insufficient stock" shows exactly that message and leaves the state
unchanged. -/
theorem c5_failed_submission_witness :
    (handlePlaceOrder "USER001"
        { id := "P3", distributor_id := "D2", product_name := "Sugar"
          category := none, price := 40, moq := 5, payment_modes := ["COD"]
          lead_time := none, stock_quantity := 2, service_areas := [] }
        { products := [], loading := false, refreshing := false }
        ConfirmChoice.confirm (Except.error (some "Insufficient stock")) false
        (Except.ok [])).final =
        { products := [], loading := false, refreshing := false } ∧
      Event.alertShown "Error" "Insufficient stock" ∈
        (handlePlaceOrder "USER001"
          { id := "P3", distributor_id := "D2", product_name := "Sugar"
            category := none, price := 40, moq := 5, payment_modes := ["COD"]
            lead_time := none, stock_quantity := 2, service_areas := [] }
          { products := [], loading := false, refreshing := false }
          ConfirmChoice.confirm (Except.error (some "Insufficient stock")) false
          (Except.ok [])).events := by
  have h := c5_failed_submission "USER001"
    { id := "P3", distributor_id := "D2", product_name := "Sugar"
      category := none, price := 40, moq := 5, payment_modes := ["COD"]
      lead_time := none, stock_quantity := 2, service_areas := [] }
    { products := [], loading := false, refreshing := false }
    false (Except.ok []) (some "Insufficient stock")
  exact ⟨h.1, h.2.2 "Insufficient stock" rfl (by decide)⟩

/-- C6: after a successful submission whose success notice is
acknowledged, exactly one catalog fetch occurs and none of the events
preceding the acknowledgment is a fetch (the reload is issued strictly
after the acknowledgment, never concurrently with the submission); after
a failed submission, zero catalog fetches occur. -/
theorem c6_reload_after_ack (u : String) (p : Product) (s : ViewState)
    (oid : String) (rr : FetchOutcome) (msg : Option String) (ack : Bool) :
    ((handlePlaceOrder u p s ConfirmChoice.confirm (Except.ok oid) true
        rr).events.countP isFetchCall = 1) ∧
      (((handlePlaceOrder u p s ConfirmChoice.confirm (Except.ok oid) true
          rr).events.takeWhile
            (fun e => decide (e ≠ Event.ackSuccess))).countP isFetchCall = 0) ∧
      ((handlePlaceOrder u p s ConfirmChoice.confirm (Except.error msg) ack
        rr).events.countP isFetchCall = 0) := by
  refine ⟨?_, ?_, ?_⟩ <;>
    cases rr with
  | ok data =>
      simp [handlePlaceOrder, loadProducts, isFetchCall, List.countP,
        List.countP.go, List.takeWhile]
  | error m =>
      simp [handlePlaceOrder, loadProducts, isFetchCall, List.countP,
        List.countP.go, List.takeWhile]

/-- C10: products starts as the empty sequence, and after a failed
initial load the resulting ViewState (empty products, loading and
refreshing false) is identical to the state after a successful load of
an empty catalog; the screen then renders the empty-catalog state, not
an error state. -/
theorem c10_failed_initial_load_empty (msg : Option String) :
    initialViewState.products = [] ∧
      (loadProducts initialViewState (Except.error msg)).final =
        (loadProducts initialViewState (Except.ok [])).final ∧
      (loadProducts initialViewState (Except.error msg)).final.loading
        = false ∧
      (loadProducts initialViewState (Except.error msg)).final.refreshing
        = false ∧
      render (loadProducts initialViewState (Except.error msg)).final =
        Screen.emptyCatalog := by
  refine ⟨rfl, rfl, rfl, rfl, rfl⟩

end SakshiConnect
